import Mathlib

/-!
# Verification of the hotline.mjs position/transfer engine

Shallow embedding of the core of `src/hotline.mjs` (the `hotline` class):
the periodic tick created in `start()` (geometry read, forward/backward
exit tests, element transfer), the shared `position`/`move` operations,
the drag listeners (`move.start` / `moving` / `move.end`), `magnetize`,
and `configure`.

Coordinates, sizes and margins are modelled as rationals (`ℚ`): the JS
numbers involved are finite pixel quantities and no claim depends on
floating-point rounding of arithmetic itself; the only rounding in the
code is the explicit `Math.round` in the two boundary tests, modelled
exactly by `jsRound`.  `element.offsetLeft` / `element.offsetTop` return
integers, so the container's leading edge is an `ℤ`.

The two axis branches of the source (`instance.vertical ? ... : ...`)
are mirror images acting on the axis-appropriate DOM properties
(`y`/`height`/`marginTop`/`marginBottom` versus
`x`/`width`/`marginLeft`/`marginRight`).  `Item` therefore stores the
geometry *along the movement axis* and each definition below is the
common instantiation of both branches; the one place where the source
does NOT respect the axis (the `magnetize` offset formula, which always
uses `x`/`width`) is modelled with a two-axis `Rect` so that the
divergence is visible.
-/

namespace Hotline

/-- JS `Math.round`: round half toward positive infinity,
`Math.round(x) = ⌊x + 1/2⌋` for every finite `x`. -/
def jsRound (q : ℚ) : ℤ := ⌊q + (1 : ℚ)/2⌋

/-- JS falsy-default on an optional parse result: `parseFloat(s) || d`.
`none` models `NaN` (or an unset style); a parsed `0` is falsy in JS and
also falls through to the default. -/
def parsedOr (v : Option ℚ) (d : ℚ) : ℚ :=
  match v with
  | some q => if q = 0 then d else q
  | none => d

/-- JS falsy-chain on numbers: `a || b`. -/
def jsOrQ (a b : ℚ) : ℚ := if a = 0 then b else a

/-- A JS value that is either a boolean or a string.  The `#moving` field
of the class is declared `@type {boolean}` but is initialised to the
string literal `"false"` (line 157 of the source), so its honest type is
this sum. -/
inductive JsVal where
  | bool (b : Bool)
  | str (s : String)
deriving DecidableEq

/-- The `#status` values of the instance: "ready", "started", "stopped"
(the field starts as `null`, modelled by `Option Status`). -/
inductive Status where
  | ready
  | started
  | stopped
deriving DecidableEq

/-- The magnetism zones (`this.#magnetism`): the three symbols
`beginning`, `center`, `end`, plus `unknown` standing for any argument
that is none of the three (the `default:` arm of the switch). -/
inductive Zone where
  | beginning
  | center
  | ending
  | unknown
deriving DecidableEq

/-- One element of the strip, with its geometry along the movement axis:
`coord` and `size` come from `getBoundingClientRect()` (`x`/`width` or
`y`/`height`), `styleMargin` is the inline leading margin
(`style.marginLeft` / `style.marginTop`; `none` = unset, so
`parseFloat` of it is `NaN`), `computedGap` is the parsed trailing
margin from `getComputedStyle` (`none` = `NaN`). -/
structure Item where
  coord : ℚ
  size : ℚ
  styleMargin : Option ℚ
  computedGap : Option ℚ
deriving DecidableEq

/-- The event registry `this.events`.  Fields mirror the keys of the
default `Map` with their default values (`transfer.beginning` and
`transfer.end` start `true`, the rest `false`).  The last four fields
are keys the code *consults* (`events.get("moving")`,
`events.get("position")`, `events.get("magnetized")`,
`events.get("moving.freezed")`) that are absent from the default
registry — `Map.get` of a missing key is `undefined`, i.e. disabled —
but which a caller can enable through the public `events` map. -/
structure EventFlags where
  ready : Bool := false
  started : Bool := false
  stopped : Bool := false
  configured : Bool := false
  move : Bool := false
  moveMouse : Bool := false
  moveTouch : Bool := false
  moveFreezed : Bool := false
  moveUnfreezed : Bool := false
  movedForward : Bool := false
  movedBackward : Bool := false
  offset : Bool := false
  transferBeginning : Bool := true
  transferEnd : Bool := true
  observerStarted : Bool := false
  observerStopped : Bool := false
  moving : Bool := false
  position : Bool := false
  magnetized : Bool := false
  movingFreezed : Bool := false
deriving DecidableEq

/-- Events dispatched by the engine paths modelled here, with their
`detail` payloads. -/
inductive Ev where
  | transferEnd (offset : ℚ)
  | transferBeginning (offset : ℚ)
  | moving (src : ℚ) (dst : ℚ)
  | positionChanged (src : Option ℚ) (dst : ℚ)
  | moveMouse (src : ℚ) (dst : Option ℚ)
  | moveTouch (src : ℚ) (dst : Option ℚ)
  | moveUnfreezed
  | magnetized (z : Zone)
deriving DecidableEq

/-- The mutable state of one `hotline` instance that the modelled code
paths read and write.  `items` is the strip in DOM order (head =
`shell.firstElementChild`); `shellLeading` is `shell.offsetLeft` /
`shell.offsetTop`; `firstPosition` is the cache `this.#first.position`
(`none` = `undefined`, as after `this.#first = {}`).  Field defaults are
the class-field initialisers of the source (`interval = 10`,
`alive = true`, `#freezed = false`, `#moving = "false"`,
`movable = true`, `hover = true`, `step = 1`, `transfer = true`,
`#transfer = true`, `sticky = false`, `magnet = 1`,
`vertical = false`). -/
structure Engine where
  items : List Item
  shellLeading : ℤ
  firstPosition : Option ℚ := none
  status : Option Status := none
  interval : ℕ := 10
  alive : Bool := true
  freezed : Bool := false
  moving : JsVal := JsVal.str "false"
  movable : Bool := true
  hover : Bool := true
  sticky : Bool := false
  step : ℚ := 1
  transfer : Bool := true
  transferSys : Bool := true
  magnet : ℚ := 1
  vertical : Bool := false
  events : EventFlags := {}
deriving DecidableEq

/-- The shared position operation (`position(value)`, source lines
1349–1390): remember `old = this.#first.position || undefined`, resolve
`this.#first.element` (falling back to `shell.firstElementChild`; in
every state the claims range over this resolution yields the current
lead item, since the tick reassigns the cache at its top and transfers
clear it), then — when a lead element exists — write the value into the
cache and onto the element's leading margin, optionally dispatch the
"position" event, and return `value - (old || 0)`.  When no lead item is
resolvable it returns `null` (`none`) and changes nothing.  The Lean
function is total: the operation never throws. -/
def positionOp (e : Engine) (value : ℚ) : Engine × List Ev × Option ℚ :=
  let old : Option ℚ :=
    match e.firstPosition with
    | some p => if p = 0 then none else some p
    | none => none
  match e.items with
  | [] => (e, [], none)
  | first :: rest =>
    ({ e with items := { first with styleMargin := some value } :: rest,
              firstPosition := some value },
     if e.events.position then [Ev.positionChanged old value] else [],
     some (value - old.getD 0))

/-- The move operation (`move(step)`, source lines 1404–1430):
`coordinate = this.#first.position + (step || this.step)`, write it via
`positionOp`, then dispatch the "moving" event (`hotline.moving`,
gated by the registry key `"moving"`) with
`{from: obsolete, to: coordinate}` — dispatched whether or not the
position write succeeded.  When the cache `this.#first.position` is
`undefined` the JS arithmetic produces `NaN`; the style engine rejects
the `"NaNpx"` margin write and every caller collapses the non-numeric
return through `|| 0` or a null-check, so the observable effect is "no
movement", which is what the `none` branch returns.  No claim below
exercises that branch. -/
def moveOp (e : Engine) (stepArg : Option ℚ) : Engine × List Ev × Option ℚ :=
  match e.firstPosition with
  | some p =>
    let st : ℚ :=
      match stepArg with
      | some s => if s = 0 then e.step else s
      | none => e.step
    let c := p + st
    let r := positionOp e c
    (r.1, r.2.1 ++ (if e.events.moving then [Ev.moving p c] else []), r.2.2)
  | none => (e, [], none)

/-- One execution of the interval callback installed by `start()`
(source lines 524–724): read the lead item's geometry (position from its
inline margin, trailing gap from computed style, `end = coord + size +
gap`), then

* forward-exit test `Math.round(end) < shellLeading`: when transfer is
  requested (`transfer === true`) and allowed (`#transfer`), re-append
  the lead to the tail with its margin cleared, dispatch
  "transfer.end" with offset `-(size + gap)`, and drop the `#first`
  cache;
* otherwise backward-exit test `Math.round(coord) > shellLeading`: when
  transfer is enabled, take the last element, read its trailing gap with
  the falsy fallback chain `parseFloat(computed) || #first.offset || 0`,
  insert it before the lead, give it margin `-(size + gap)`, clear the
  lead's margin, dispatch "transfer.beginning" with offset
  `+(size + gap)`, and drop the cache;
* otherwise (steady state): when `alive === true` and
  `#freezed === false`, advance by `this.step` through `moveOp`.

With a single item the backward branch's `insertBefore(last, first)`
acts on one and the same node: the margin write on "last" is then
overwritten by the margin clear on "first", so the net effect is a
cleared margin.  With an empty strip the JS callback throws on
`null.getBoundingClientRect()`; that state is unreachable once the
engine runs and the model leaves it unchanged. -/
def tick (e : Engine) : Engine × List Ev :=
  match e.items with
  | [] => (e, [])
  | first :: rest =>
    let pos := parsedOr first.styleMargin 0
    let off := parsedOr first.computedGap 0
    let endCoord := first.coord + first.size + off
    let e0 := { e with firstPosition := some pos }
    if jsRound endCoord < e.shellLeading then
      if e.transfer && e.transferSys then
        ({ e0 with items := rest ++ [{ first with styleMargin := none }],
                   firstPosition := none },
         if e.events.transferEnd then
           [Ev.transferEnd (-(first.size + off))] else [])
      else (e0, [])
    else if jsRound first.coord > e.shellLeading then
      if e.transfer && e.transferSys then
        match rest with
        | [] =>
          let gap := parsedOr first.computedGap off
          ({ e0 with items := [{ first with styleMargin := none }],
                     firstPosition := none },
           if e.events.transferBeginning then
             [Ev.transferBeginning (first.size + gap)] else [])
        | r :: rs =>
          let lastI := (r :: rs).getLast (List.cons_ne_nil r rs)
          let gap := parsedOr lastI.computedGap off
          let items2 := { lastI with styleMargin := some (-lastI.size - gap) } ::
            { first with styleMargin := none } :: (r :: rs).dropLast
          ({ e0 with items := items2, firstPosition := none },
           if e.events.transferBeginning then
             [Ev.transferBeginning (lastI.size + gap)] else [])
      else (e0, [])
    else
      if e.alive && !e.freezed then
        let r := moveOp e0 none
        (r.1, r.2.1)
      else (e0, [])

/-! ## Drag gesture (the `move.start` / `moving` / `move.end` listeners) -/

/-- Per-gesture bookkeeping captured by the `move.start` listener (source
lines 813–912): the pointer coordinate at gesture start (`x` or `y`),
the lead position at gesture start (`const initial =
instance.#first.position`), and the recycle-offset accumulator (the
`position` buffer declared at line 799, reset to `0` on gesture end). -/
structure Gesture where
  startCoord : ℚ
  initial : ℚ
  acc : ℚ
deriving DecidableEq

/-- Which listeners of the gesture are currently attached (the
`document` move listeners and the two `hotline.transfer.*` listeners on
the shell). -/
structure DragState where
  gesture : Gesture
  movingAttached : Bool
  transferAttached : Bool
deriving DecidableEq

/-- The transient `transfer` listener (source lines 802–807): on either
recycle event, add its `detail.offset` to the accumulator. -/
def onTransfer (g : Gesture) (ev : Ev) : Gesture :=
  match ev with
  | Ev.transferEnd o => { g with acc := g.acc + o }
  | Ev.transferBeginning o => { g with acc := g.acc + o }
  | _ => g

/-- The drag position formula of the `moving` listener:
`coordinate - (start + position - initial)`. -/
def dragTarget (g : Gesture) (c : ℚ) : ℚ :=
  c - (g.startCoord + g.acc - g.initial)

/-- The `moving` listener (source lines 847–904): while
`#status === "started"`, set `#moving = true`, write
`position(coordinate - (x + position - initial))`, then dispatch
"move.mouse" or "move.touch" (by event type) with
`{from: initial, to: this.#first.position}`. -/
def movingListener (e : Engine) (g : Gesture) (c : ℚ) (mouse : Bool) :
    Engine × List Ev :=
  if e.status = some Status.started then
    let e1 := { e with moving := JsVal.bool true }
    let r := positionOp e1 (dragTarget g c)
    let after := r.1.firstPosition
    (r.1, r.2.1 ++
      (if mouse then
        (if e.events.moveMouse then [Ev.moveMouse g.initial after] else [])
      else
        (if e.events.moveTouch then [Ev.moveTouch g.initial after] else [])))
  else (e, [])

/-- The `move.end` listener (source lines 953–998): set
`#moving = false`, detach the document move listeners and the two
transfer listeners, reset the accumulator to `0`, and then — under
`instance.hover !== false || !instance.#shell.contains(end.target)` —
unfreeze and optionally dispatch "move.unfreezed".  (`targetInShell`
models `shell.contains(end.target)`.)  The magnetize trigger that
follows in the source (lines 1000–1031) hands off to `magnetizeStart`
and is not part of this listener's state change. -/
def moveEnd (e : Engine) (d : DragState) (targetInShell : Bool) :
    Engine × DragState × List Ev :=
  let e1 := { e with moving := JsVal.bool false }
  let d1 := { d with gesture := { d.gesture with acc := 0 },
                     movingAttached := false, transferAttached := false }
  if e.hover = true || targetInShell = false then
    ({ e1 with freezed := false }, d1,
     if e.events.moveUnfreezed then [Ev.moveUnfreezed] else [])
  else (e1, d1, [])

/-! ## Magnetize -/

/-- A two-axis bounding rectangle (`getBoundingClientRect()` result),
needed because `magnetize` reads `x`/`width` regardless of
`this.vertical`. -/
structure Rect where
  x : ℚ
  y : ℚ
  width : ℚ
  height : ℚ
deriving DecidableEq

/-- The "magnetized" event dispatch (`detail: {magnetism}`), gated by
the registry key `"magnetized"`. -/
def magnetizedEvs (e : Engine) (z : Zone) : List Ev :=
  if e.events.magnetized then [Ev.magnetized z] else []

/-- The offset computed by the center-zone case of `magnetize` (source
line 1613): `target.x + target.width / 2 - (shell.x + shell.width / 2)`
— the horizontal centers, with no branch on `this.vertical`. -/
def centerOffset (target shell : Rect) : ℚ :=
  target.x + target.width / 2 - (shell.x + shell.width / 2)

/-- What the body of `magnetize(element, magnetism)` decides before any
timer runs (source lines 1603–1766). -/
inductive MagnetizeResult where
  | pending
  | resolveNow (z : Zone) (evs : List Ev)
  | drive (initialOffset : ℚ)
deriving DecidableEq

/-- The dispatch of `magnetize` on the zone argument: the `beginning`
and `end` cases of the switch are empty ("wait for updates"), leaving
`offset` undefined; the `default` case returns out of the executor, so
the promise is never settled (`pending`).  After the switch,
`undefined > 0` and `undefined < 0` are both false, so an undefined
offset — like an offset of exactly `0` — falls into the final branch
that resolves immediately with the zone (dispatching "magnetized" when
enabled); a nonzero center offset starts the driving interval. -/
def magnetizeStart (e : Engine) (target shell : Rect) (z : Zone) :
    MagnetizeResult :=
  match z with
  | Zone.unknown => MagnetizeResult.pending
  | Zone.beginning => MagnetizeResult.resolveNow Zone.beginning (magnetizedEvs e Zone.beginning)
  | Zone.ending => MagnetizeResult.resolveNow Zone.ending (magnetizedEvs e Zone.ending)
  | Zone.center =>
    let off := centerOffset target shell
    if off > 0 then MagnetizeResult.drive off
    else if off < 0 then MagnetizeResult.drive off
    else MagnetizeResult.resolveNow Zone.center (magnetizedEvs e Zone.center)

/-- The mutable loop variables of the magnetize driving interval. -/
structure MagnetState where
  offset : ℚ
  step : ℚ
deriving DecidableEq

/-- Result of one firing of the magnetize interval. -/
structure MagnetTick where
  engine : Engine
  state : MagnetState
  evs : List Ev
  done : Bool
deriving DecidableEq

/-- Initial speed of the positive-offset branch (source line 1631):
`-Math.abs(this.magnet) || -Math.abs(this.step) || 0`. -/
def magnetInitStepPos (e : Engine) : ℚ := jsOrQ (-|e.magnet|) (jsOrQ (-|e.step|) 0)

/-- Initial speed of the negative-offset branch (source line 1693):
`Math.abs(this.magnet) || Math.abs(this.step) || 0`. -/
def magnetInitStepNeg (e : Engine) : ℚ := jsOrQ |e.magnet| (jsOrQ |e.step| 0)

/-- One firing of the driving interval for a positive initial offset
(source lines 1634–1676): `--step`; `brake = offset + step`; if
`brake <= 0` clamp `step = -offset`; `offset += this.move(step) || 0`;
when the offset reaches exactly `0`, stop and resolve, dispatching
"magnetized" when enabled (only the center zone ever drives). -/
def magnetStepPos (e : Engine) (m : MagnetState) : MagnetTick :=
  let s1 := m.step - 1
  let s2 := if m.offset + s1 ≤ 0 then -m.offset else s1
  let r := moveOp e (some s2)
  let off2 := m.offset + (r.2.2.getD 0)
  { engine := r.1, state := ⟨off2, s2⟩,
    evs := r.2.1 ++ (if off2 = 0 then magnetizedEvs e Zone.center else []),
    done := decide (off2 = 0) }

/-- One firing of the driving interval for a negative initial offset
(source lines 1696–1738): `++step`; `brake = offset + step`; if
`brake >= 0` clamp `step = -offset`; then as in `magnetStepPos`. -/
def magnetStepNeg (e : Engine) (m : MagnetState) : MagnetTick :=
  let s1 := m.step + 1
  let s2 := if m.offset + s1 ≥ 0 then -m.offset else s1
  let r := moveOp e (some s2)
  let off2 := m.offset + (r.2.2.getD 0)
  { engine := r.1, state := ⟨off2, s2⟩,
    evs := r.2.1 ++ (if off2 = 0 then magnetizedEvs e Zone.center else []),
    done := decide (off2 = 0) }

/-- The driving interval run against its tick budget: the interval fires
every `this.interval` ms and the `setTimeout(reject, 5000)` guard cuts
it off, so a run that has not resolved within the budget is rejected
(`none`); a resolved run returns the final engine and the events of the
resolving firing.  `psgn` records which branch the initial offset sign
selected. -/
def magnetRun : ℕ → Engine → Bool → MagnetState → Option (Engine × List Ev)
  | 0, _, _, _ => none
  | Nat.succ n, e, psgn, m =>
    let t := if psgn then magnetStepPos e m else magnetStepNeg e m
    if t.done then some (t.engine, t.evs) else magnetRun n t.engine psgn t.state

/-- The number of interval firings the 5000 ms rejection timer allows. -/
def magnetTimeoutTicks (e : Engine) : ℕ := 5000 / e.interval

/-! ## Configure (attribute parsing) -/

/-- A value `configure` can store on the instance. -/
inductive ConfigValue where
  | bool (b : Bool)
  | num (q : ℚ)
  | str (s : String)
  | zone (z : Zone)
deriving DecidableEq

/-- The observable outcome of one `configure(attribute)` call. -/
inductive ConfigResult where
  | ignored
  | assigned (name : String) (value : ConfigValue)
deriving DecidableEq

/-- Strip an expected head off a character list, or fail. -/
def chopHead : List Char → List Char → Option (List Char)
  | [], rest => some rest
  | _ :: _, [] => none
  | p :: ps, c :: cs => if c = p then chopHead ps cs else none

/-- A regex `\w` word character: `[A-Za-z0-9_]`. -/
def wordChar (c : Char) : Bool := c.isAlphanum || c == '_'

/-- The parameter-name extraction `/^data-hotline-(\w+)$/` (source line
1284): the attribute must be exactly `data-hotline-` followed by one or
more word characters. -/
def attrName (attr : String) : Option String :=
  match chopHead "data-hotline-".data attr.data with
  | some rest =>
    if rest ≠ [] ∧ rest.all wordChar then some (String.mk rest) else none
  | none => none

/-- A model of JS `parseFloat` on attribute strings: skip leading
whitespace, optional sign, decimal digits with an optional fractional
part, ignoring any trailing garbage; `none` models `NaN` (no digits at
all).  Exponent notation and `Infinity` are not modelled — no attribute
value in the claims uses them. -/
def takeDigits : List Char → List Char × List Char
  | [] => ([], [])
  | c :: cs =>
    if c.isDigit then
      let r := takeDigits cs
      (c :: r.1, r.2)
    else ([], c :: cs)

/-- Digits to a natural number, most significant first. -/
def digitsToNat (l : List Char) : ℕ :=
  l.foldl (fun acc c => acc * 10 + (c.toNat - 48)) 0

/-- See `takeDigits`: the numeric prefix of a string, JS-`parseFloat`
style. -/
def jsParseFloat (s : String) : Option ℚ :=
  let cs := s.data.dropWhile Char.isWhitespace
  let signAndRest : Bool × List Char :=
    match cs with
    | '-' :: r => (true, r)
    | '+' :: r => (false, r)
    | r => (false, r)
  let ip := takeDigits signAndRest.2
  let fp : List Char :=
    match ip.2 with
    | '.' :: r => (takeDigits r).1
    | _ => []
  if ip.1 = [] ∧ fp = [] then none
  else
    let n : ℚ := (digitsToNat ip.1 : ℚ) + (digitsToNat fp : ℚ) / ((10 : ℚ) ^ fp.length)
    some (if signAndRest.1 then -n else n)

/-- The value-coercion of `configure` (source lines 1303–1318):
`"true"/"on"/"yes"` become `true`, `"false"/"off"/"no"` become `false`,
anything else is stored as `parseFloat(value) || value` — the parsed
number unless it is `NaN` **or `0`** (both falsy), in which case the
original string is stored. -/
def coerce (v : String) : ConfigValue :=
  if v = "true" ∨ v = "on" ∨ v = "yes" then ConfigValue.bool true
  else if v = "false" ∨ v = "off" ∨ v = "no" then ConfigValue.bool false
  else
    match jsParseFloat v with
    | some q => if q = 0 then ConfigValue.str v else ConfigValue.num q
    | none => ConfigValue.str v

/-- `configure(attribute)` (source lines 1282–1335) over the attribute
name and its value (`none` models a missing attribute, whose
`getAttribute` is `null` and fails the `typeof value === "string"`
guard): extract the parameter name, drop it if it is in the `#ignored`
set (`{"events"}`), store the magnetism symbol for
`data-hotline-magnetic` with a valid zone name, and otherwise store the
coerced value.  Nothing is ever rejected.  (The optional "configured"
event of the string branch is not modelled; no claim mentions it.) -/
def configureModel (attr : String) (value : Option String) : ConfigResult :=
  match attrName attr with
  | none => ConfigResult.ignored
  | some name =>
    if name = "events" then ConfigResult.ignored
    else
      match value with
      | none => ConfigResult.ignored
      | some v =>
        if name = "magnetic" ∧ (v = "beginning" ∨ v = "center" ∨ v = "end") then
          ConfigResult.assigned name (ConfigValue.zone
            (if v = "beginning" then Zone.beginning
             else if v = "center" then Zone.center else Zone.ending))
        else ConfigResult.assigned name (coerce v)

/-! ## Claims -/

/-- Claim C7: for every value, the shared position operation writes the
value into the engine state (`#first.position`) and onto the lead item's
leading-margin style, returns the delta from the previous position
(previous defaulting to `0` when unset — `value - (old || 0)`), emits
the "position" notification exactly when enabled, and returns the no-op
sentinel `null` (`none`) leaving the state untouched when no lead item
is resolvable.  The operation is a total function: it never throws. -/
theorem c7_position_op (e : Engine) (value : ℚ) :
    (∀ first rest, e.items = first :: rest →
      positionOp e value =
        ({ e with items := { first with styleMargin := some value } :: rest,
                  firstPosition := some value },
         (if e.events.position then
            [Ev.positionChanged
              (match e.firstPosition with
               | some p => if p = 0 then none else some p
               | none => none) value]
          else []),
         some (value - e.firstPosition.getD 0))) ∧
    (e.items = [] → positionOp e value = (e, [], none)) := by
  constructor
  · intro first rest hItems
    cases hfp : e.firstPosition with
    | none => simp [positionOp, hItems, hfp]
    | some p =>
      by_cases hp : p = 0
      · simp [positionOp, hItems, hfp, hp]
      · simp [positionOp, hItems, hfp, hp]
  · intro hItems
    simp [positionOp, hItems]

/-- Witness for C7 at a concrete engine with one item: writing position
`3` over a previous position `5` updates state and margin and returns
the delta `-2`. -/
theorem c7_position_op_witness :
    positionOp
      { items := [{ coord := 1, size := 2, styleMargin := some 5, computedGap := none }],
        shellLeading := 0, firstPosition := some 5 } 3 =
      ({ items := [{ coord := 1, size := 2, styleMargin := some 3, computedGap := none }],
         shellLeading := 0, firstPosition := some 3 },
       [], some (3 - 5)) := by
  have h := (c7_position_op
    { items := [{ coord := 1, size := 2, styleMargin := some 5, computedGap := none }],
      shellLeading := 0, firstPosition := some 5 } 3).1
    { coord := 1, size := 2, styleMargin := some 5, computedGap := none } [] rfl
  simpa using h

/-- Claim C1: on a tick whose forward-exit test fires
(`Math.round(coord + size + gap) < shellLeading`) with transfer enabled
by both the user flag and the system lock, the lead item's margin
override is cleared, the lead is re-appended at the tail of the strip,
the `#first` cache is dropped, and — when the (default-enabled)
"transfer.end" registry entry is on — a transfer-to-end event is
broadcast whose offset payload is `-(size + gap)`. -/
theorem c1_forward_exit (e : Engine) (first : Item) (rest : List Item)
    (hItems : e.items = first :: rest)
    (hTest : jsRound (first.coord + first.size + parsedOr first.computedGap 0) < e.shellLeading)
    (hT : e.transfer = true) (hS : e.transferSys = true) :
    (tick e).1 = { e with items := rest ++ [{ first with styleMargin := none }],
                          firstPosition := none } ∧
    (tick e).2 = (if e.events.transferEnd then
      [Ev.transferEnd (-(first.size + parsedOr first.computedGap 0))] else []) := by
  simp only [tick, hItems]
  rw [if_pos hTest]
  simp [hT, hS]

/-- Witness for C1: two 100-wide items with a 10 gap, lead at `-111`
(so its end rounds to `-1 < 0`): the tick re-appends the cleared lead
and broadcasts `transfer.end` with offset `-110`. -/
theorem c1_forward_exit_witness :
    (tick { items := [{ coord := -111, size := 100, styleMargin := some (-111), computedGap := some 10 },
                      { coord := -1, size := 100, styleMargin := none, computedGap := some 10 }],
            shellLeading := 0 }).1.items =
      [{ coord := -1, size := 100, styleMargin := none, computedGap := some 10 },
       { coord := -111, size := 100, styleMargin := none, computedGap := some 10 }] ∧
    (tick { items := [{ coord := -111, size := 100, styleMargin := some (-111), computedGap := some 10 },
                      { coord := -1, size := 100, styleMargin := none, computedGap := some 10 }],
            shellLeading := 0 }).2 = [Ev.transferEnd (-110)] := by
  have h := c1_forward_exit
    { items := [{ coord := -111, size := 100, styleMargin := some (-111), computedGap := some 10 },
                { coord := -1, size := 100, styleMargin := none, computedGap := some 10 }],
      shellLeading := 0 }
    { coord := -111, size := 100, styleMargin := some (-111), computedGap := some 10 }
    [{ coord := -1, size := 100, styleMargin := none, computedGap := some 10 }]
    rfl (by norm_num [jsRound, parsedOr]) rfl rfl
  rw [h.1, h.2]
  norm_num [parsedOr]

/-- Claim C2: on a tick where the forward-exit test is false and the
backward-exit test fires (`Math.round(coord) > shellLeading`) with
transfer enabled, the tail item's trailing gap is read with the falsy
fallback chain (computed style, then the lead's separator, then `0`),
the tail item gets margin `-(size + gap)` (its trailing edge lands at
the container's leading edge), it is inserted physically before the
current lead, the old lead — now the second item — has its margin
override cleared, and a transfer-to-beginning event with offset payload
`+(size + gap)` is broadcast when the (default-enabled) registry entry
is on. -/
theorem c2_backward_exit (e : Engine) (first r : Item) (rs newItems : List Item)
    (lastI : Item) (gap : ℚ)
    (hItems : e.items = first :: r :: rs)
    (hLast : (r :: rs).getLast (List.cons_ne_nil r rs) = lastI)
    (hGap : gap = parsedOr lastI.computedGap (parsedOr first.computedGap 0))
    (hNew : newItems = { lastI with styleMargin := some (-(lastI.size + gap)) } ::
      { first with styleMargin := none } :: (r :: rs).dropLast)
    (hFwd : ¬ jsRound (first.coord + first.size + parsedOr first.computedGap 0) < e.shellLeading)
    (hBwd : jsRound first.coord > e.shellLeading)
    (hT : e.transfer = true) (hS : e.transferSys = true) :
    (tick e).1 = { e with items := newItems, firstPosition := none } ∧
    (tick e).2 = (if e.events.transferBeginning then
      [Ev.transferBeginning (lastI.size + gap)] else []) := by
  simp only [tick, hItems]
  rw [if_neg hFwd, if_pos hBwd]
  simp [hT, hS, hLast, hGap, hNew, neg_add]
  ring

/-- Witness for C2: two items; the lead has drifted to coordinate `5`
(rounds to `5 > 0`), the tail's computed trailing margin parses to `0`
so the gap falls back to the lead's separator `10`: the tail (size
`100`) is pre-positioned with margin `-110` before the cleared old
lead, and `transfer.beginning` carries `+110`. -/
theorem c2_backward_exit_witness :
    (tick { items := [{ coord := 5, size := 100, styleMargin := some 5, computedGap := some 10 },
                      { coord := 115, size := 100, styleMargin := none, computedGap := some 0 }],
            shellLeading := 0 }).1.items =
      [{ coord := 115, size := 100, styleMargin := some (-110), computedGap := some 0 },
       { coord := 5, size := 100, styleMargin := none, computedGap := some 10 }] ∧
    (tick { items := [{ coord := 5, size := 100, styleMargin := some 5, computedGap := some 10 },
                      { coord := 115, size := 100, styleMargin := none, computedGap := some 0 }],
            shellLeading := 0 }).2 = [Ev.transferBeginning 110] := by
  have h := c2_backward_exit
    { items := [{ coord := 5, size := 100, styleMargin := some 5, computedGap := some 10 },
                { coord := 115, size := 100, styleMargin := none, computedGap := some 0 }],
      shellLeading := 0 }
    { coord := 5, size := 100, styleMargin := some 5, computedGap := some 10 }
    { coord := 115, size := 100, styleMargin := none, computedGap := some 0 } []
    [{ coord := 115, size := 100, styleMargin := some (-110), computedGap := some 0 },
     { coord := 5, size := 100, styleMargin := none, computedGap := some 10 }]
    { coord := 115, size := 100, styleMargin := none, computedGap := some 0 }
    10 rfl rfl (by norm_num [parsedOr]) (by norm_num) (by norm_num [jsRound, parsedOr])
    (by norm_num [jsRound]) rfl rfl
  rw [h.1, h.2]
  norm_num

/-- A steady-state demo engine for the C3 counterexample: items fully
inside the shell (neither exit test fires), alive and unfrozen, with the
"move" registry entry — the one the claim names — enabled, and the
"moving" key (the one `move()` actually consults) disabled as it is by
default. -/
def c3cexEngine : Engine :=
  { items := [{ coord := 0, size := 50, styleMargin := none, computedGap := none },
              { coord := 50, size := 50, styleMargin := none, computedGap := none }],
    shellLeading := 0, status := some Status.started,
    events := { move := true } }

/-- Counterexample to claim C3 as stated: on a steady tick of an
engine whose "move" registry entry is enabled, the position advances by
the passive step (from `0` to `1`) and yet NO event at all is broadcast
— the passive advance in `move()` is gated by `events.get("moving")`
(and dispatches `hotline.moving`), not by the "move" entry of the
registry, which no dispatch site ever consults. -/
theorem c3_counterexample :
    c3cexEngine.events.move = true ∧
    c3cexEngine.alive = true ∧ c3cexEngine.freezed = false ∧
    (tick c3cexEngine).1.firstPosition = some 1 ∧
    (tick c3cexEngine).2 = [] := by
  refine ⟨rfl, rfl, rfl, ?_, ?_⟩ <;>
    norm_num [tick, c3cexEngine, parsedOr, jsRound, moveOp, positionOp]

/-- Claim C3 (amended): on a tick where neither exit test fires, the
position advances by the passive step through the shared position
operation if and only if passive movement (`alive`) is enabled and the
frozen flag is false — a frozen tick leaves every margin untouched and
only refreshes the `#first.position` cache from the unchanged margin —
and whenever it advances, the "moving"-keyed move event
(`hotline.moving`, absent from the default registry) carrying the
before and after position values is broadcast when that key is enabled
(alongside the "position" notification of the shared operation when
that one is enabled). -/
theorem c3_steady_state (e : Engine) (first : Item) (rest : List Item)
    (pos : ℚ)
    (hItems : e.items = first :: rest)
    (hPos : pos = parsedOr first.styleMargin 0)
    (hFwd : ¬ jsRound (first.coord + first.size + parsedOr first.computedGap 0) < e.shellLeading)
    (hBwd : ¬ jsRound first.coord > e.shellLeading) :
    ((e.alive = true ∧ e.freezed = false) →
      (tick e).1 = { e with
          items := { first with styleMargin := some (pos + e.step) } :: rest,
          firstPosition := some (pos + e.step) } ∧
      (tick e).2 =
        (if e.events.position then
           [Ev.positionChanged (if pos = 0 then none else some pos) (pos + e.step)]
         else []) ++
        (if e.events.moving then [Ev.moving pos (pos + e.step)] else [])) ∧
    (¬(e.alive = true ∧ e.freezed = false) →
      (tick e).1 = { e with firstPosition := some pos } ∧
      (tick e).2 = []) := by
  constructor
  · rintro ⟨hAlive, hFrozen⟩
    simp only [tick, hItems]
    rw [if_neg hFwd, if_neg hBwd]
    simp only [hAlive, hFrozen, Bool.not_false, Bool.and_self, if_true]
    by_cases hp : pos = 0 <;>
      simp [moveOp, positionOp, hItems, hPos, hp]
  · intro hNo
    have hAF : (e.alive && !e.freezed) = false := by
      cases hA : e.alive <;> cases hF : e.freezed <;> simp_all
    simp only [tick, hItems]
    rw [if_neg hFwd, if_neg hBwd]
    simp [hAF, hPos]

/-- Witness for C3 (amended) on a frozen engine: the frozen tick leaves
the items (hence the lead margin) unchanged and broadcasts nothing; the
same geometry with an unfrozen engine is exercised by the proof of the
advancing branch at `c3cexEngine`-like data. -/
theorem c3_steady_state_witness :
    (tick { items := [{ coord := 0, size := 50, styleMargin := some 2, computedGap := none },
                      { coord := 52, size := 50, styleMargin := none, computedGap := none }],
            shellLeading := 0, freezed := true }).1 =
      { items := [{ coord := 0, size := 50, styleMargin := some 2, computedGap := none },
                  { coord := 52, size := 50, styleMargin := none, computedGap := none }],
        shellLeading := 0, freezed := true, firstPosition := some 2 } ∧
    (tick { items := [{ coord := 0, size := 50, styleMargin := some 2, computedGap := none },
                      { coord := 52, size := 50, styleMargin := none, computedGap := none }],
            shellLeading := 0, freezed := true }).2 = [] := by
  have h := (c3_steady_state
    { items := [{ coord := 0, size := 50, styleMargin := some 2, computedGap := none },
                { coord := 52, size := 50, styleMargin := none, computedGap := none }],
      shellLeading := 0, freezed := true }
    { coord := 0, size := 50, styleMargin := some 2, computedGap := none }
    [{ coord := 52, size := 50, styleMargin := none, computedGap := none }]
    2 rfl (by norm_num [parsedOr]) (by norm_num [jsRound, parsedOr])
    (by norm_num [jsRound])).2 (by simp)
  exact h

/-- Claim C4: (i) while the engine is started, every pointer/touch move
writes lead position `pointer − (gestureStart + accumulatedRecycleOffset
− gestureStartLeadPosition)` into the state and onto the lead margin;
(ii) the accumulator is the running sum of the signed offsets of the
transfer events, and accumulating an offset `o` shifts the computed
position by exactly `−o` at the same raw pointer coordinate — for a
forward recycle carrying `−(size+gap)` (C1) the new write is the old
write plus `size+gap`, i.e. exactly the coordinate the new lead occupied
before the re-parenting, so the strip shows no jump; (iii) on
gesture-end the accumulator is reset to `0` and the move and recycle
listeners are detached. -/
theorem c4_drag_tracking (e : Engine) (g : Gesture) (c o sz gp : ℚ)
    (mouse tIn : Bool) (first : Item) (rest : List Item) (d : DragState)
    (hStatus : e.status = some Status.started)
    (hItems : e.items = first :: rest) :
    (dragTarget g c = c - (g.startCoord + g.acc - g.initial) ∧
     (movingListener e g c mouse).1.firstPosition = some (dragTarget g c) ∧
     (movingListener e g c mouse).1.items.head? =
        some { first with styleMargin := some (dragTarget g c) }) ∧
    (dragTarget (onTransfer g (Ev.transferEnd o)) c = dragTarget g c - o ∧
     dragTarget (onTransfer g (Ev.transferBeginning o)) c = dragTarget g c - o ∧
     dragTarget (onTransfer g (Ev.transferEnd (-(sz + gp)))) c =
       dragTarget g c + (sz + gp)) ∧
    ((moveEnd e d tIn).2.1.gesture.acc = 0 ∧
     (moveEnd e d tIn).2.1.movingAttached = false ∧
     (moveEnd e d tIn).2.1.transferAttached = false) := by
  refine ⟨?_, ⟨?_, ?_, ?_⟩, ?_⟩
  · constructor <;>
      simp [movingListener, positionOp, dragTarget, hStatus, hItems]
  · simp [dragTarget, onTransfer]; ring
  · simp [dragTarget, onTransfer]; ring
  · simp [dragTarget, onTransfer]; ring
  · unfold moveEnd
    by_cases h : e.hover = true ∨ tIn = false
    · rcases h with h | h <;> simp [h]
    · push_neg at h
      simp [h.1, h.2]

/-- Witness for C4: a started two-item engine, gesture started at
pointer `200` with lead position `7` and accumulator `-110`: a pointer
move to `150` writes `150 − (200 + (−110) − 7) = 67`; a gesture-end
resets the accumulator and detaches both listeners. -/
theorem c4_drag_tracking_witness :
    (movingListener
      { items := [{ coord := 0, size := 100, styleMargin := some 7, computedGap := some 10 },
                  { coord := 110, size := 100, styleMargin := none, computedGap := some 10 }],
        shellLeading := 0, firstPosition := some 7, status := some Status.started }
      { startCoord := 200, initial := 7, acc := -110 } 150 true).1.firstPosition =
      some 67 ∧
    (moveEnd
      { items := [{ coord := 0, size := 100, styleMargin := some 7, computedGap := some 10 },
                  { coord := 110, size := 100, styleMargin := none, computedGap := some 10 }],
        shellLeading := 0, firstPosition := some 7, status := some Status.started }
      { gesture := { startCoord := 200, initial := 7, acc := -110 },
        movingAttached := true, transferAttached := true } true).2.1.gesture.acc = 0 := by
  have h := c4_drag_tracking
    { items := [{ coord := 0, size := 100, styleMargin := some 7, computedGap := some 10 },
                { coord := 110, size := 100, styleMargin := none, computedGap := some 10 }],
      shellLeading := 0, firstPosition := some 7, status := some Status.started }
    { startCoord := 200, initial := 7, acc := -110 } 150 0 0 0 true true
    { coord := 0, size := 100, styleMargin := some 7, computedGap := some 10 }
    [{ coord := 110, size := 100, styleMargin := none, computedGap := some 10 }]
    { gesture := { startCoord := 200, initial := 7, acc := -110 },
      movingAttached := true, transferAttached := true }
    rfl rfl
  refine ⟨?_, h.2.2.1⟩
  rw [h.1.2.1]
  norm_num [dragTarget]

/-- An in-flight drag with both kinds of listeners attached. -/
def c6Drag : DragState :=
  { gesture := { startCoord := 0, initial := 5, acc := 0 },
    movingAttached := true, transferAttached := true }

/-- A frozen, started engine with hover-freeze enabled, mid-drag, used
to exercise the gesture-end listener for claim C6. -/
def c6Engine : Engine :=
  { items := [{ coord := 0, size := 50, styleMargin := some 5, computedGap := none },
              { coord := 50, size := 50, styleMargin := none, computedGap := none }],
    shellLeading := 0, firstPosition := some 5, status := some Status.started,
    freezed := true, hover := true, moving := JsVal.bool true }

/-- Claim C6 is contradicted by the code: the source guards the
unfreeze with `instance.hover !== false || !shell.contains(end.target)`
(line 986) although its own comment ("Not requested freezing or not the
user cursor hovered") and the spec require `hover === false || ...`.
Evaluating the gesture-end listener at the failing input — hover-freeze
ENABLED and the release point INSIDE the container — shows the code
unfreezes (`#freezed` becomes `false`, with the "move.unfreezed"
notification path taken) where the claim requires the instance to stay
frozen; the moving flag is cleared as claimed.  Conversely, with
hover-freeze disabled and the release inside, the code stays frozen
although the claim requires the freeze to drop. -/
theorem c6_gesture_end_code_behavior :
    c6Engine.hover = true ∧ c6Engine.freezed = true ∧
    (moveEnd c6Engine c6Drag true).1.freezed = false ∧
    (moveEnd c6Engine c6Drag true).1.moving = JsVal.bool false ∧
    (moveEnd { c6Engine with hover := false } c6Drag true).1.freezed = true := by
  refine ⟨rfl, rfl, ?_, ?_, ?_⟩ <;> simp [moveEnd, c6Engine]

/-- A drag state for the C9 gesture-end conjunct. -/
def c9Drag : DragState :=
  { gesture := { startCoord := 0, initial := 0, acc := 0 },
    movingAttached := true, transferAttached := true }

/-- A freshly constructed instance (all class-field initialisers, status
"ready" as set by the constructor for a shell with more than one
child). -/
def freshEngine : Engine :=
  { items := [{ coord := 0, size := 50, styleMargin := none, computedGap := none },
              { coord := 50, size := 50, styleMargin := none, computedGap := none }],
    shellLeading := 0, status := some Status.ready }

/-- Claim C9 is contradicted by the code at construction: the `#moving`
field is initialised to the string literal `"false"` (source line 157:
`#moving = "false";`) although its doc comment declares
`@type {boolean}`, so the publicly readable `moving` getter returns a
string, not the boolean `false`, until the first gesture writes a real
boolean.  The gesture-end and movement-disabled paths do write the
boolean `false` (third conjunct, via the gesture-end listener). -/
theorem c9_moving_flag_initial_value :
    freshEngine.moving = JsVal.str "false" ∧
    freshEngine.moving ≠ JsVal.bool false ∧
    (moveEnd freshEngine c9Drag false).1.moving = JsVal.bool false := by
  refine ⟨rfl, by simp [freshEngine], ?_⟩
  simp [moveEnd, freshEngine]

/-- Claim C10: for every target item, `magnetize` with the beginning or
end zone — whose switch cases are empty, leaving the offset undefined —
or with the center zone when the computed offset is already `0`,
performs no position change: no driving interval is started (the result
is `resolveNow`, not `drive`, and carries no engine mutation), the
deferred result resolves immediately with the zone, and the
"magnetized" notification is emitted exactly when its registry key is
enabled; only an unrecognized zone value (the `default:` arm returns
out of the executor) leaves the promise forever pending. -/
theorem c10_magnetize_trivial_zones (e : Engine) (t s : Rect) :
    magnetizeStart e t s Zone.beginning =
      MagnetizeResult.resolveNow Zone.beginning (magnetizedEvs e Zone.beginning) ∧
    magnetizeStart e t s Zone.ending =
      MagnetizeResult.resolveNow Zone.ending (magnetizedEvs e Zone.ending) ∧
    (centerOffset t s = 0 → magnetizeStart e t s Zone.center =
      MagnetizeResult.resolveNow Zone.center (magnetizedEvs e Zone.center)) ∧
    magnetizeStart e t s Zone.unknown = MagnetizeResult.pending ∧
    (e.events.magnetized = true →
      magnetizedEvs e Zone.beginning = [Ev.magnetized Zone.beginning]) ∧
    (e.events.magnetized = false → magnetizedEvs e Zone.beginning = []) := by
  refine ⟨rfl, rfl, ?_, rfl, ?_, ?_⟩
  · intro h
    simp [magnetizeStart, h]
  · intro h
    simp [magnetizedEvs, h]
  · intro h
    simp [magnetizedEvs, h]

/-- Witness for C10: a target whose center coincides with the shell
center (offset `0`) on an engine with the "magnetized" key enabled:
all three trivial zones resolve immediately, with the event. -/
theorem c10_magnetize_trivial_zones_witness :
    magnetizeStart
      { items := [], shellLeading := 0, events := { magnetized := true } }
      { x := 10, y := 0, width := 20, height := 5 }
      { x := 0, y := 0, width := 40, height := 5 } Zone.center =
      MagnetizeResult.resolveNow Zone.center [Ev.magnetized Zone.center] := by
  have h := c10_magnetize_trivial_zones
    { items := [], shellLeading := 0, events := { magnetized := true } }
    { x := 10, y := 0, width := 20, height := 5 }
    { x := 0, y := 0, width := 40, height := 5 }
  rw [h.2.2.1 (by norm_num [centerOffset])]
  simp [magnetizedEvs]

/-- If the driving interval resolves within `n` firings it resolves,
with the same outcome, within any larger budget: fuel monotonicity of
`magnetRun`. -/
theorem magnetRun_mono : ∀ (n k : ℕ) (e : Engine) (psgn : Bool) (m : MagnetState)
    (r : Engine × List Ev), magnetRun n e psgn m = some r → n ≤ k →
    magnetRun k e psgn m = some r := by
  intro n
  induction n with
  | zero =>
    intro k e psgn m r h _
    exact absurd h (by simp [magnetRun])
  | succ n ih =>
    intro k e psgn m r h hk
    cases k with
    | zero => omega
    | succ k =>
      rw [magnetRun] at h ⊢
      by_cases hd : (if psgn then magnetStepPos e m else magnetStepNeg e m).done = true
      · simp only [hd, if_true] at h ⊢
        exact h
      · simp only [hd, if_false, Bool.false_eq_true, reduceIte] at h ⊢
        exact ih k _ _ _ _ h (by omega)

/-- An engine whose strip is empty: the position write inside `move`
fails (`null`), so the magnetize driver can never change its offset. -/
def c5NoLead : Engine :=
  { items := [], shellLeading := 0, firstPosition := some 0,
    status := some Status.started }

/-- With no resolvable lead item the magnetize driver never reaches
offset `0`, whatever its fuel: the run always times out. -/
theorem magnetRun_noLead (n : ℕ) : ∀ m : MagnetState, m.offset ≠ 0 →
    magnetRun n c5NoLead true m = none := by
  induction n with
  | zero => intro m _; rfl
  | succ n ih =>
    intro m hm
    have hstep : magnetStepPos c5NoLead m =
        ⟨c5NoLead,
         ⟨m.offset, if m.offset + (m.step - 1) ≤ 0 then -m.offset else m.step - 1⟩,
         [], false⟩ := by
      unfold magnetStepPos moveOp positionOp
      simp [c5NoLead, hm]
    rw [magnetRun]
    simp only [if_true, hstep]
    exact ih _ hm

/-- A vertical engine for the C5 counterexample. -/
def c5cexEngine : Engine :=
  { items := [{ coord := 0, size := 50, styleMargin := some 0, computedGap := none },
              { coord := 50, size := 50, styleMargin := none, computedGap := none }],
    shellLeading := 0, firstPosition := some 0, status := some Status.started,
    vertical := true }

/-- Target rect for the C5 counterexample: horizontally centered in the
shell, vertically 47 ahead of the shell center. -/
def c5cexTarget : Rect := { x := 0, y := 100, width := 10, height := 20 }

/-- Shell rect for the C5 counterexample. -/
def c5cexShell : Rect := { x := 0, y := 0, width := 10, height := 126 }

/-- Counterexample to claim C5 as stated: `magnetize` does NOT compute
the offset along the movement axis.  On a vertical instance whose
target center sits 47px below the shell center along the movement
(vertical) axis — but horizontally centered — the code computes its
offset from `x`/`width` only, gets `0`, and resolves immediately
without any position change, where the claim requires the initial
offset `targetCenter − containerCenter` along the vertical axis (47)
and a drive toward it. -/
theorem c5_counterexample :
    c5cexEngine.vertical = true ∧
    c5cexTarget.y + c5cexTarget.height / 2 -
      (c5cexShell.y + c5cexShell.height / 2) = 47 ∧
    magnetizeStart c5cexEngine c5cexTarget c5cexShell Zone.center =
      MagnetizeResult.resolveNow Zone.center [] := by
  refine ⟨rfl, by norm_num [c5cexTarget, c5cexShell], ?_⟩
  norm_num [magnetizeStart, centerOffset, c5cexTarget, c5cexShell,
    magnetizedEvs, c5cexEngine]

/-- Lead item of the C5 scenario engine. -/
def c5Item1 : Item := { coord := 0, size := 100, styleMargin := some 0, computedGap := some 10 }

/-- Second item of the C5 scenario engine. -/
def c5Item2 : Item := { coord := 110, size := 100, styleMargin := none, computedGap := some 10 }

/-- The C5 scenario engine: horizontal, `magnet = 1`, `interval = 10`,
"magnetized" notification enabled. -/
def c5Engine : Engine :=
  { items := [c5Item1, c5Item2], shellLeading := 0, firstPosition := some 0,
    status := some Status.started, events := { magnetized := true } }

/-- Target rect whose center is 37 ahead of the shell center. -/
def c5Target : Rect := { x := 32, y := 0, width := 10, height := 10 }

/-- Shell rect of the C5 scenario. -/
def c5Shell : Rect := { x := 0, y := 0, width := 0, height := 10 }

/-- The engine after the C5 scenario run: the strip has been dragged
back by 37 pixels. -/
def c5Final : Engine :=
  { c5Engine with items := [{ c5Item1 with styleMargin := some (-37) }, c5Item2],
                  firstPosition := some (-37) }

/-- The delta returned by `move(step)` is exactly the step argument
whenever a lead item exists and the `#first.position` cache is
initialised (the `step || this.step` fallback only applies to a zero
argument). -/
theorem moveOp_delta (e : Engine) (first : Item) (rest : List Item) (p st0 : ℚ)
    (hItems : e.items = first :: rest) (hCache : e.firstPosition = some p)
    (hst : st0 ≠ 0) :
    (moveOp e (some st0)).2.2 = some st0 := by
  unfold moveOp positionOp
  by_cases hp : p = 0 <;>
    simp [hItems, hCache, hst, hp]

/-- Claim C5 (amended): `magnetize` with the center zone computes the
initial offset as `targetCenter − containerCenter` along the
HORIZONTAL axis (`x`/`width`), regardless of the axis setting; a
nonzero offset starts the driving interval, which on each tick
increases the step magnitude by one unless the overshoot guard clamps
the final step so the accumulated offset lands exactly on `0`; the
deferred result resolves exactly when the offset reaches `0`, emitting
the "magnetized" notification when its key is enabled, and is rejected
when the 5000 ms timeout elapses before that.  The 37-pixel scenario
(`magnet = 1`) converges and resolves within the timeout budget. -/
theorem c5_magnetize_center (e : Engine) (t s : Rect) (m : MagnetState)
    (first : Item) (rest : List Item) (p : ℚ)
    (hItems : e.items = first :: rest)
    (hCache : e.firstPosition = some p) :
    (centerOffset t s = t.x + t.width / 2 - (s.x + s.width / 2) ∧
     (centerOffset t s ≠ 0 →
        magnetizeStart e t s Zone.center = MagnetizeResult.drive (centerOffset t s)) ∧
     (centerOffset t s = 0 → magnetizeStart e t s Zone.center =
        MagnetizeResult.resolveNow Zone.center (magnetizedEvs e Zone.center))) ∧
    (m.offset > 0 → m.step ≤ 0 →
      (m.offset + (m.step - 1) > 0 →
        (magnetStepPos e m).state.step = m.step - 1 ∧
        |m.step - 1| = |m.step| + 1 ∧
        (magnetStepPos e m).state.offset = m.offset + (m.step - 1) ∧
        (magnetStepPos e m).done = false) ∧
      (m.offset + (m.step - 1) ≤ 0 →
        (magnetStepPos e m).state.step = -m.offset ∧
        (magnetStepPos e m).state.offset = 0 ∧
        (magnetStepPos e m).done = true) ∧
      (magnetStepPos e m).state.offset ≥ 0) ∧
    (m.offset < 0 → m.step ≥ 0 →
      (m.offset + (m.step + 1) < 0 →
        (magnetStepNeg e m).state.step = m.step + 1 ∧
        |m.step + 1| = |m.step| + 1 ∧
        (magnetStepNeg e m).state.offset = m.offset + (m.step + 1) ∧
        (magnetStepNeg e m).done = false) ∧
      (m.offset + (m.step + 1) ≥ 0 →
        (magnetStepNeg e m).state.step = -m.offset ∧
        (magnetStepNeg e m).state.offset = 0 ∧
        (magnetStepNeg e m).done = true)) ∧
    ((magnetStepPos e m).done = true ↔ (magnetStepPos e m).state.offset = 0) ∧
    ((magnetStepPos e m).done = true → e.events.magnetized = true →
       Ev.magnetized Zone.center ∈ (magnetStepPos e m).evs) ∧
    (centerOffset c5Target c5Shell = 37 ∧
     magnetRun (magnetTimeoutTicks c5Engine) c5Engine true
        { offset := 37, step := magnetInitStepPos c5Engine } =
       some (c5Final, [Ev.magnetized Zone.center])) ∧
    (∀ m2 : MagnetState, m2.offset ≠ 0 →
       magnetRun (magnetTimeoutTicks c5NoLead) c5NoLead true m2 = none) := by
  refine ⟨⟨rfl, ?_, ?_⟩, ?_, ?_, ?_, ?_, ⟨by norm_num [centerOffset, c5Target, c5Shell], ?_⟩, ?_⟩
  · intro h
    rcases lt_trichotomy (centerOffset t s) 0 with hlt | heq | hgt
    · simp [magnetizeStart, hlt, not_lt.mpr (le_of_lt hlt)]
    · exact absurd heq h
    · simp [magnetizeStart, hgt]
  · intro h
    simp [magnetizeStart, h]
  · intro hOff hStep
    have hs1 : m.step - 1 ≠ 0 := by linarith
    have hd := moveOp_delta e first rest p (m.step - 1) hItems hCache hs1
    have hc : -m.offset ≠ 0 := by linarith
    have hdc := moveOp_delta e first rest p (-m.offset) hItems hCache hc
    refine ⟨?_, ?_, ?_⟩
    · intro hNo
      have hcond : ¬ m.offset + (m.step - 1) ≤ 0 := by linarith
      have hne : m.offset + (m.step - 1) ≠ 0 := by linarith
      refine ⟨?_, ?_, ?_, ?_⟩
      · simp [magnetStepPos, hcond]
      · rw [abs_of_nonpos hStep, abs_of_nonpos (by linarith : m.step - 1 ≤ 0)]
        ring
      · simp [magnetStepPos, hcond, hd]
      · simp [magnetStepPos, hcond, hd, hne]
    · intro hYes
      refine ⟨?_, ?_, ?_⟩
      · simp [magnetStepPos, hYes]
      · simp [magnetStepPos, hYes, hdc]
      · simp [magnetStepPos, hYes, hdc]
    · by_cases hcond : m.offset + (m.step - 1) ≤ 0
      · have hoz : (magnetStepPos e m).state.offset = 0 := by
          simp [magnetStepPos, hcond, hdc]
        rw [hoz]
      · have hoz : (magnetStepPos e m).state.offset = m.offset + (m.step - 1) := by
          simp [magnetStepPos, hcond, hd]
        rw [hoz]
        linarith
  · intro hOff hStep
    have hs1 : m.step + 1 ≠ 0 := by linarith
    have hd := moveOp_delta e first rest p (m.step + 1) hItems hCache hs1
    have hc : -m.offset ≠ 0 := by linarith
    have hdc := moveOp_delta e first rest p (-m.offset) hItems hCache hc
    refine ⟨?_, ?_⟩
    · intro hNo
      have hcond : ¬ m.offset + (m.step + 1) ≥ 0 := by linarith
      have hne : m.offset + (m.step + 1) ≠ 0 := by linarith
      refine ⟨?_, ?_, ?_, ?_⟩
      · simp [magnetStepNeg, hcond]
      · rw [abs_of_nonneg hStep, abs_of_nonneg (by linarith : (0:ℚ) ≤ m.step + 1)]
      · simp [magnetStepNeg, hcond, hd]
      · simp [magnetStepNeg, hcond, hd, hne]
    · intro hYes
      refine ⟨?_, ?_, ?_⟩
      · simp [magnetStepNeg, hYes]
      · simp [magnetStepNeg, hYes, hdc]
      · simp [magnetStepNeg, hYes, hdc]
  · simp [magnetStepPos]
  · intro hdone hflag
    simp only [magnetStepPos, decide_eq_true_eq] at hdone
    simp [magnetStepPos, hdone, magnetizedEvs, hflag]
  · have h8 : magnetRun 8 c5Engine true
        { offset := 37, step := magnetInitStepPos c5Engine } =
        some (c5Final, [Ev.magnetized Zone.center]) := by
      norm_num [magnetRun, magnetInitStepPos, magnetStepPos, moveOp, positionOp,
        magnetizedEvs, jsOrQ, c5Engine, c5Item1, c5Item2, c5Final]
    exact magnetRun_mono 8 (magnetTimeoutTicks c5Engine) _ _ _ _ h8
      (by norm_num [magnetTimeoutTicks, c5Engine])
  · intro m2 hm2
    exact magnetRun_noLead _ m2 hm2

/-- Witness for C5 (amended) at the scenario engine: one driving tick
from offset `5` with speed `-1` grows the step to `-2` (no clamp,
`5 - 2 = 3 > 0`) and leaves the driver running; the scenario offset is
`37`; the no-lead driver is rejected at the timeout. -/
theorem c5_magnetize_center_witness :
    (magnetStepPos c5Engine { offset := 5, step := -1 }).state.step = -2 ∧
    (magnetStepPos c5Engine { offset := 5, step := -1 }).state.offset = 3 ∧
    (magnetStepPos c5Engine { offset := 5, step := -1 }).done = false ∧
    centerOffset c5Target c5Shell = 37 ∧
    magnetRun (magnetTimeoutTicks c5NoLead) c5NoLead true
      { offset := 5, step := -1 } = none := by
  have h := c5_magnetize_center c5Engine c5Target c5Shell
    { offset := 5, step := -1 } c5Item1 [c5Item2] 0 rfl rfl
  have h2 := (h.2.1 (by norm_num) (by norm_num)).1 (by norm_num)
  refine ⟨?_, ?_, h2.2.2.2, h.2.2.2.2.2.1.1, h.2.2.2.2.2.2 _ (by norm_num)⟩
  · rw [h2.1]; norm_num
  · rw [h2.2.2.1]; norm_num

/-- The six boolean-like attribute strings. -/
def boolWords : List String := ["true", "on", "yes", "false", "off", "no"]

/-- Counterexample to claim C8 as stated: two recognized attributes are
not stored as the claim describes.  (i) `data-hotline-step="0"` is
numeric-parseable (`parseFloat` gives `0`), yet `parseFloat(value) ||
value` finds the parsed `0` falsy and stores the STRING `"0"`, not the
number `0`.  (ii) `data-hotline-magnetic="center"` stores the
magnetism symbol, not the string. -/
theorem c8_counterexample :
    jsParseFloat "0" = some 0 ∧
    configureModel "data-hotline-step" (some "0") =
      ConfigResult.assigned "step" (ConfigValue.str "0") ∧
    configureModel "data-hotline-magnetic" (some "center") =
      ConfigResult.assigned "magnetic" (ConfigValue.zone Zone.center) := by
  refine ⟨?_, ?_, ?_⟩ <;>
    simp +decide [configureModel, attrName, chopHead, wordChar, coerce,
      jsParseFloat, takeDigits, digitsToNat]

/-- Claim C8 (amended): for every recognized `data-hotline-*` attribute
other than the excluded registry name "events" and other than
`magnetic` with a valid zone name (which stores the zone symbol),
`configure` stores the coerced value, never rejecting: the strings
`true`/`on`/`yes` coerce to the boolean `true`, `false`/`off`/`no` to
`false`, a numeric-parseable string whose parsed value is NONZERO
coerces to that number (so `step="5"` becomes the number `5`), and any
other string — including one that parses to the falsy `0` — is stored
unchanged. -/
theorem c8_configure_coercion (attr rest v : String)
    (hAttr : attrName attr = some rest) (hName : rest ≠ "events")
    (hMag : ¬(rest = "magnetic" ∧ (v = "beginning" ∨ v = "center" ∨ v = "end"))) :
    configureModel attr (some v) = ConfigResult.assigned rest (coerce v) ∧
    ((v = "true" ∨ v = "on" ∨ v = "yes") → coerce v = ConfigValue.bool true) ∧
    ((v = "false" ∨ v = "off" ∨ v = "no") → coerce v = ConfigValue.bool false) ∧
    (∀ q : ℚ, v ∉ boolWords → jsParseFloat v = some q → q ≠ 0 →
        coerce v = ConfigValue.num q) ∧
    (v ∉ boolWords → (jsParseFloat v = none ∨ jsParseFloat v = some 0) →
        coerce v = ConfigValue.str v) ∧
    coerce "5" = ConfigValue.num 5 := by
  refine ⟨?_, ?_, ?_, ?_, ?_, ?_⟩
  · simp [configureModel, hAttr, hName, hMag]
  · intro h
    simp [coerce, h]
  · rintro (h | h | h) <;> subst h <;> simp +decide [coerce]
  · intro q hnb hq hq0
    simp only [boolWords, List.mem_cons, List.not_mem_nil, or_false,
      not_or] at hnb
    obtain ⟨h1, h2, h3, h4, h5, h6⟩ := hnb
    simp [coerce, h1, h2, h3, h4, h5, h6, hq, hq0]
  · intro hnb hp
    simp only [boolWords, List.mem_cons, List.not_mem_nil, or_false,
      not_or] at hnb
    obtain ⟨h1, h2, h3, h4, h5, h6⟩ := hnb
    rcases hp with hp | hp <;>
      simp [coerce, h1, h2, h3, h4, h5, h6, hp]
  · simp +decide [coerce, jsParseFloat, takeDigits, digitsToNat]

/-- Witness for C8 (amended): the attribute `data-hotline-step="5"`
stores the number `5`. -/
theorem c8_configure_coercion_witness :
    configureModel "data-hotline-step" (some "5") =
      ConfigResult.assigned "step" (ConfigValue.num 5) := by
  have h := c8_configure_coercion "data-hotline-step" "step" "5"
    (by simp +decide [attrName, chopHead, wordChar]) (by decide)
    (by simp +decide)
  rw [h.1, h.2.2.2.2.2]

end Hotline
